import Mathlib

/-!
Verification development for the NearestPetrolStation ("Fuel Finder")
repository: a shallow embedding in Lean 4 of the pure utility functions
(`toRadians`, `haversineDistanceMeters`, `formatDistance`,
`sortStationsByDistance`), the Overpass response normalization inside
`fetchStations`, the manual-coordinate submission handler
`setManualLocationAndFetch`, the geolocation callback semantics of
`getCurrentLocation`, and the `routeCoords` effect of `App`.

JS numbers are modelled by `ℚ` wherever the program only does exact
arithmetic and comparisons, and by `ℝ` for the transcendental haversine
math.  Fields a JS object may leave `undefined` are `Option`s.
-/

namespace FuelFinder

/-- A latitude/longitude pair as produced by the location resolver
(`{ lat, lon }` objects in `App.jsx`). -/
structure Coordinate where
  lat : ℚ
  lon : ℚ
deriving DecidableEq, Repr

/-- The tags object of an Overpass element
(`tags.name`, `tags.brand`, `tags["addr:street"]`,
`tags["addr:housenumber"]`, `tags["addr:city"]`); every key may be absent. -/
structure Tags where
  name : Option String := none
  brand : Option String := none
  addrStreet : Option String := none
  addrHousenumber : Option String := none
  addrCity : Option String := none
deriving DecidableEq, Repr

/-- A `center` object (`{ lat, lon }`) reported by Overpass for ways and
relations. -/
structure Center where
  lat : ℚ
  lon : ℚ
deriving DecidableEq, Repr

/-- A raw Overpass response element: `{ type, id, lat?, lon?, center?, tags? }`.
`lat`/`lon` are only present on nodes, `center` only on ways/relations, and a
malformed element may omit any of them. -/
structure Element where
  type : String
  id : ℤ
  lat : Option ℚ := none
  lon : Option ℚ := none
  center : Option Center := none
  tags : Option Tags := none
deriving DecidableEq, Repr

/-- The Station object built by `fetchStations`, plus the `distanceMeters`
field that the `load` effect later spreads in
(`{ ...s, distanceMeters: ... }`); until then it is `undefined` (`none`). -/
structure Station where
  id : ℤ
  name : Option String := none
  brand : Option String := none
  address : String := ""
  lat : Option ℚ := none
  lon : Option ℚ := none
  distanceMeters : Option ℚ := none
deriving DecidableEq, Repr

/-! ## Geodesy: `formatDistance` (src/utils.js)

```js
export function formatDistance(meters) {
  if (meters == null || Number.isNaN(meters)) return '';
  if (meters < 1000) return `${Math.round(meters)} m`;
  return `${(meters / 1000).toFixed(2)} km`;
}
```
-/

/-- The possible JS values of the `meters` argument of `formatDistance`:
`null`/`undefined`, `NaN`, or an ordinary number (modelled exactly by `ℚ`). -/
inductive JsMeters where
  | null
  | nan
  | num (q : ℚ)
deriving DecidableEq, Repr

/-- JS `Math.round`: round to the nearest integer, halves toward positive
infinity. -/
def jsRound (q : ℚ) : ℤ := ⌊q + 1/2⌋

/-- Render `n < 100` as exactly two decimal digits (the fraction part
produced by `toFixed(2)`). -/
def twoDigits (n : ℕ) : String :=
  if n < 10 then "0" ++ toString n else toString n

/-- ECMA `Number.prototype.toFixed(2)` on a non-negative number: the integer
`n` with `n / 100` closest to the value (ties to the larger `n`), rendered
with a decimal point before the last two digits. -/
def toFixed2Abs (q : ℚ) : String :=
  let n : ℕ := (⌊q * 100 + 1/2⌋).toNat
  toString (n / 100) ++ "." ++ twoDigits (n % 100)

/-- ECMA `Number.prototype.toFixed(2)`: a negative number is rendered as the
sign followed by `toFixed(2)` of its absolute value. -/
def toFixed2 (q : ℚ) : String :=
  if q < 0 then "-" ++ toFixed2Abs (-q) else toFixed2Abs q

/-- `formatDistance` from src/utils.js, line for line: empty string on
`null`/`NaN`, `Math.round` plus " m" when `meters < 1000`, `toFixed(2)` of
the kilometre value plus " km" otherwise. -/
def formatDistance : JsMeters → String
  | .null => ""
  | .nan => ""
  | .num q =>
    if q < 1000 then toString (jsRound q) ++ " m"
    else toFixed2 (q / 1000) ++ " km"

/-! ## Ranking: `sortStationsByDistance` (src/utils.js)

```js
export function sortStationsByDistance(stations) {
  return [...stations].sort((a, b) => (a.distanceMeters ?? 0) - (b.distanceMeters ?? 0));
}
```

`Array.prototype.sort` is required by ECMAScript to be a stable sort, and
with the numeric comparator above it orders ascending by the key
`distanceMeters ?? 0`.  A stable sort for a total preorder is unique, so we
model it by `List.insertionSort` (which Mathlib proves sorted, a
permutation, and stable) on that key, applied to the explicit spread copy
`[...stations]`. -/

/-- The comparator key `s.distanceMeters ?? 0`. -/
def distKey (s : Station) : ℚ := s.distanceMeters.getD 0

/-- The comparator-induced preorder: `a` may come no later than `b` when its
key is `≤`. -/
def distLE (a b : Station) : Prop := distKey a ≤ distKey b

instance : DecidableRel distLE :=
  fun a b => inferInstanceAs (Decidable (distKey a ≤ distKey b))

instance : IsTotal Station distLE := ⟨fun a b => le_total (distKey a) (distKey b)⟩

instance : IsTrans Station distLE :=
  ⟨fun _ _ _ h1 h2 => le_trans h1 h2⟩

/-- The array spread `[...stations]`: a fresh array holding the same
elements in the same order. -/
def spreadCopy {α : Type} (l : List α) : List α := l.foldr List.cons []

/-- `sortStationsByDistance` from src/utils.js: copy the array, then sort
the copy (stably) by the comparator
`(a.distanceMeters ?? 0) - (b.distanceMeters ?? 0)`. -/
def sortStationsByDistance (stations : List Station) : List Station :=
  (spreadCopy stations).insertionSort distLE

/-- The JS call `sortStationsByDistance(store[i])` against a heap of arrays:
it allocates one fresh array (the spread copy, sorted in place) and returns
its address; no existing array is written. -/
def jsSortStationsCall (store : List (List Station)) (i : ℕ) :
    List (List Station) × ℕ :=
  (store ++ [sortStationsByDistance (store.getD i [])], store.length)

theorem spreadCopy_eq {α : Type} (l : List α) : spreadCopy l = l := by
  induction l with
  | nil => rfl
  | cons a t ih =>
    unfold spreadCopy at ih ⊢
    simp only [List.foldr_cons, ih]

/-! ## Station Query Client: normalization inside `fetchStations` (App.jsx)

```js
const elements = data.elements ?? [];
const stations = elements.map((el) => {
  const center = el.type === 'node' ? { lat: el.lat, lon: el.lon } : el.center;
  const tags = el.tags ?? {};
  return { id: el.id, name: tags.name, brand: tags.brand,
           address: [tags['addr:street'], tags['addr:housenumber'], tags['addr:city']]
             .filter(Boolean).join(' '),
           lat: center.lat, lon: center.lon };
});
```

For a node, `center` is a freshly built object whose fields may be
`undefined`; for a way/relation it is `el.center` itself, and when that is
`undefined` the property read `center.lat` throws a TypeError which rejects
the whole `fetchStations` promise.  `[..].filter(Boolean).join(' ')` keeps
the tag values that are present and non-empty and joins them by a space. -/

/-- The `center` local of the mapping callback: `none` is the `undefined`
value whose `.lat` read throws. -/
def elementCenter (el : Element) : Option (Option ℚ × Option ℚ) :=
  if el.type = "node" then some (el.lat, el.lon)
  else el.center.map (fun c => (some c.lat, some c.lon))

/-- `[street, housenumber, city].filter(Boolean).join(' ')`. -/
def buildAddress (tags : Tags) : String :=
  String.intercalate " "
    ((([tags.addrStreet, tags.addrHousenumber, tags.addrCity]).filterMap id).filter
      (fun s => s != ""))

/-- The body of the `elements.map` callback; `Except.error` models the
TypeError thrown by reading `center.lat` when `center` is `undefined`. -/
def normalizeElement (el : Element) : Except Unit Station :=
  match elementCenter el with
  | none => .error ()
  | some c =>
    let tags := el.tags.getD {}
    .ok { id := el.id, name := tags.name, brand := tags.brand,
          address := buildAddress tags, lat := c.1, lon := c.2 }

/-- `elements.map(...)` with a callback that may throw: the first throw
aborts the whole map (and hence the whole `fetchStations` call). -/
def normalizeElements : List Element → Except Unit (List Station)
  | [] => .ok []
  | el :: rest =>
    match normalizeElement el with
    | .error e => .error e
    | .ok s =>
      match normalizeElements rest with
      | .error e => .error e
      | .ok ss => .ok (s :: ss)

/-- The two ways the `fetchStations` promise can reject. -/
inductive FetchError where
  | fetchFailed
  | typeError
deriving DecidableEq, Repr

/-- The HTTP response as seen by `fetchStations` after `res.json()`:
the `ok` status flag and the optional `elements` array. -/
structure OverpassResponse where
  ok : Bool
  elements : Option (List Element) := none
deriving DecidableEq, Repr

/-- `fetchStations` from App.jsx, past the network: throw `FetchFailed` on a
non-success status (`if (!res.ok) throw ...`), otherwise normalize
`data.elements ?? []` element by element. -/
def fetchStations (resp : OverpassResponse) : Except FetchError (List Station) :=
  if !resp.ok then .error .fetchFailed
  else
    match normalizeElements (resp.elements.getD []) with
    | .error _ => .error .typeError
    | .ok stations => .ok stations

/-! ## Location Resolver: manual entry (App.jsx, `setManualLocationAndFetch`)

```js
const lat = parseFloat(manualLocation.lat);
const lon = parseFloat(manualLocation.lon);
if (isNaN(lat) || isNaN(lon) || lat < -90 || lat > 90 || lon < -180 || lon > 180) {
  alert('Please enter valid coordinates (Lat: -90 to 90, Lon: -180 to 180)');
  return;
}
const current = { lat, lon };
setUserLocation(current);
setShowManualLocation(false);
setGeoError(null);
```
-/

/-- The App state fields the manual-location flow reads or writes. -/
structure AppState where
  userLocation : Option Coordinate
  showManualLocation : Bool
  geoError : Option String
deriving DecidableEq, Repr

/-- The `parseFloat` results of the two manual input fields; `none` models
`NaN` (a non-numeric field). -/
structure ManualLocation where
  lat : Option ℚ
  lon : Option ℚ
deriving DecidableEq, Repr

/-- The observable outcome of one `setManualLocationAndFetch` call: the new
state, whether the validation alert fired, and whether a station fetch is
triggered (the `load` effect fires exactly when `setUserLocation` ran). -/
structure ManualResult where
  state : AppState
  alerted : Bool
  fetchTriggered : Bool
deriving DecidableEq, Repr

/-- `setManualLocationAndFetch` from App.jsx: validate, and on failure alert
and return with no state change; on success set the user location, close the
manual form, clear the geolocation error (triggering the fetch effect). -/
def setManualLocationAndFetch (s : AppState) (m : ManualLocation) : ManualResult :=
  match m.lat, m.lon with
  | some lat, some lon =>
    if lat < -90 ∨ lat > 90 ∨ lon < -180 ∨ lon > 180 then
      { state := s, alerted := true, fetchTriggered := false }
    else
      { state := { userLocation := some ⟨lat, lon⟩,
                   showManualLocation := false,
                   geoError := none },
        alerted := false, fetchTriggered := true }
  | _, _ => { state := s, alerted := true, fetchTriggered := false }

/-! ## Location Resolver: device geolocation (App.jsx, `getCurrentLocation`)

Each `getCurrentLocation` call issues one `getCurrentPosition` request whose
success callback runs

```js
setUserLocation(current); setGeoError(null); setIsLocating(false);
```

unconditionally — there is no request-generation counter, so the callback of
an old request that fires late still overwrites the state.  We model the
event-driven execution: `locate` issues a fresh request (identified by a
counter), and `success`/`failure` fire the callback of a still-pending
request. -/

/-- The App state fields the geolocation flow reads or writes, plus the
bookkeeping of in-flight `getCurrentPosition` requests. -/
structure ResolverState where
  userLocation : Option Coordinate
  geoError : Option String
  isLocating : Bool
  loading : Bool
  nextReq : ℕ
  pending : List ℕ
deriving DecidableEq, Repr

/-- Initial App state: nothing resolved, loading. -/
def initialResolver : ResolverState :=
  { userLocation := none, geoError := none, isLocating := false,
    loading := true, nextReq := 0, pending := [] }

/-- The user-facing message chosen by the error callback for a
`GeolocationPositionError` code. -/
def geoErrorMessage (code : ℕ) : String :=
  if code = 1 then "Location access denied. Please allow location permission and try again."
  else if code = 2 then "Location unavailable. Please check your GPS/network connection."
  else if code = 3 then "Location request timed out. Please try again."
  else "Unable to retrieve your location."

/-- One step of the single-threaded event loop: a `getCurrentLocation` call,
or the success/error callback of request `req` firing. -/
inductive GeoEvent where
  | locate
  | success (req : ℕ) (lat lon : ℚ)
  | failure (req : ℕ) (code : ℕ)
deriving DecidableEq, Repr

/-- The state transition of each event, translated from `getCurrentLocation`
and its two callbacks.  A callback can only fire for a request that was
issued and has not fired yet (`req ∈ pending`); when it does, its body runs
unconditionally, exactly as in the source. -/
def resolverStep (s : ResolverState) : GeoEvent → ResolverState
  | .locate =>
    { s with isLocating := true, geoError := none,
             pending := s.pending ++ [s.nextReq], nextReq := s.nextReq + 1 }
  | .success req lat lon =>
    if req ∈ s.pending then
      { s with userLocation := some ⟨lat, lon⟩, geoError := none,
               isLocating := false, pending := s.pending.erase req }
    else s
  | .failure req code =>
    if req ∈ s.pending then
      { s with geoError := some (geoErrorMessage code), loading := false,
               isLocating := false, pending := s.pending.erase req }
    else s

/-- Run a sequence of events from a state. -/
def runResolver (s : ResolverState) (evs : List GeoEvent) : ResolverState :=
  evs.foldl resolverStep s

/-! ## View Coordinator: the `routeCoords` effect (App.jsx)

```js
useEffect(() => {
  if (!userLocation || stations.length === 0) { setRouteCoords(null); return; }
  const nearest = stations[0];
  setRouteCoords([[userLocation.lat, userLocation.lon], [nearest.lat, nearest.lon]]);
}, [stations, userLocation]);
```

The effect re-runs whenever `stations` or `userLocation` changes; the value
it stores is the pure function below of the current pair. -/

/-- The value `setRouteCoords` receives for a given user location and ranked
station list. -/
def computeRouteCoords (userLocation : Option Coordinate)
    (stations : List Station) : Option (List (Option ℚ × Option ℚ)) :=
  match userLocation, stations with
  | none, _ => none
  | some _, [] => none
  | some u, nearest :: _ =>
    some [(some u.lat, some u.lon), (nearest.lat, nearest.lon)]

/-! ## Geodesy: `toRadians` and `haversineDistanceMeters` (src/utils.js)

```js
export function toRadians(degrees) { return (degrees * Math.PI) / 180; }
export function haversineDistanceMeters(lat1, lon1, lat2, lon2) {
  const R = 6371000;
  const dLat = toRadians(lat2 - lat1);
  const dLon = toRadians(lon2 - lon1);
  const a = Math.sin(dLat / 2) * Math.sin(dLat / 2) +
    Math.cos(toRadians(lat1)) * Math.cos(toRadians(lat2)) *
    Math.sin(dLon / 2) * Math.sin(dLon / 2);
  const c = 2 * Math.atan2(Math.sqrt(a), Math.sqrt(1 - a));
  return R * c;
}
```

The transcendental math is modelled over `ℝ`. -/

/-- JS `Math.atan2(y, x)` for finite real arguments (ECMA quadrant rules;
`ℝ` has no signed zero, so the origin maps to 0). -/
noncomputable def jsAtan2 (y x : ℝ) : ℝ :=
  if 0 < x then Real.arctan (y / x)
  else if x < 0 ∧ 0 ≤ y then Real.arctan (y / x) + Real.pi
  else if x < 0 ∧ y < 0 then Real.arctan (y / x) - Real.pi
  else if x = 0 ∧ 0 < y then Real.pi / 2
  else if x = 0 ∧ y < 0 then -(Real.pi / 2)
  else 0

/-- `toRadians` from src/utils.js. -/
noncomputable def toRadians (degrees : ℝ) : ℝ := degrees * Real.pi / 180

/-- `haversineDistanceMeters` from src/utils.js, line for line. -/
noncomputable def haversineDistanceMeters (lat1 lon1 lat2 lon2 : ℝ) : ℝ :=
  let R : ℝ := 6371000
  let dLat := toRadians (lat2 - lat1)
  let dLon := toRadians (lon2 - lon1)
  let a := Real.sin (dLat / 2) * Real.sin (dLat / 2) +
    Real.cos (toRadians lat1) * Real.cos (toRadians lat2) *
    Real.sin (dLon / 2) * Real.sin (dLon / 2)
  let c := 2 * jsAtan2 (Real.sqrt a) (Real.sqrt (1 - a))
  R * c

/-! ## Claim C1: `sortStationsByDistance` sorts ascending and stably -/

/-- The spec's worked example: stations whose `distanceMeters` are
`[300, 100, 300, 50]`, tagged by ids 1 to 4 in input order. -/
def demoStations : List Station :=
  [{ id := 1, distanceMeters := some 300 },
   { id := 2, distanceMeters := some 100 },
   { id := 3, distanceMeters := some 300 },
   { id := 4, distanceMeters := some 50 }]

/-- C1: for every station list, `sortStationsByDistance` returns a
permutation of its input that is sorted ascending by `distanceMeters`, and
the sort is stable (any pair in input order with equal keys stays in that
order); on distances `[300, 100, 300, 50]` it yields `[50, 100, 300, 300]`
with the two 300-distance stations (ids 1 then 3) in input order. -/
theorem sortStationsByDistance_sorted_stable (l : List Station) :
    (sortStationsByDistance l).Sorted distLE ∧
    List.Perm (sortStationsByDistance l) l ∧
    (∀ a b : Station, List.Sublist [a, b] l → distKey a = distKey b →
      List.Sublist [a, b] (sortStationsByDistance l)) ∧
    (sortStationsByDistance demoStations).map distKey = [50, 100, 300, 300] ∧
    (sortStationsByDistance demoStations).map Station.id = [4, 2, 1, 3] := by
  unfold sortStationsByDistance
  simp only [spreadCopy_eq]
  refine ⟨List.sorted_insertionSort distLE l, List.perm_insertionSort distLE l, ?_, ?_, ?_⟩
  · intro a b hab hkey
    exact List.pair_sublist_insertionSort (le_of_eq hkey) hab
  · decide
  · decide

/-- Witness for C1: applied to the spec's example, the two 300-distance
stations (ids 1 and 3, in input order) are still in that order in the
output. -/
theorem sortStationsByDistance_sorted_stable_witness :
    List.Sublist
      [({ id := 1, distanceMeters := some 300 } : Station),
       { id := 3, distanceMeters := some 300 }]
      (sortStationsByDistance demoStations) :=
  (sortStationsByDistance_sorted_stable demoStations).2.2.1
    { id := 1, distanceMeters := some 300 } { id := 3, distanceMeters := some 300 }
    (by decide) (by decide)

/-! ## Claim C2: `formatDistance` -/

/-- Counterexample to C2 as stated: `-1` is not in `[0, 1000)`, so the claim
prescribes the kilometre rendering `(-1/1000).toFixed(2) + " km"`, but the
code takes its `meters < 1000` branch and renders "-1 m". -/
theorem formatDistance_neg_counterexample :
    formatDistance (.num (-1)) = "-1 m" ∧
    formatDistance (.num (-1)) ≠ toFixed2 ((-1 : ℚ) / 1000) ++ " km" := by
  have h : jsRound (-1) = -1 := by norm_num [jsRound]
  have hm : formatDistance (.num (-1)) = "-1 m" := by
    simp only [formatDistance]
    rw [if_pos (by norm_num : (-1:ℚ) < 1000), h]
    rfl
  have hk : toFixed2 ((-1 : ℚ)/1000) ++ " km" = "-0.00 km" := by
    have h1 : ((-1:ℚ)/1000) < 0 := by norm_num
    have h2 : ⌊(-((-1:ℚ)/1000)) * 100 + 1/2⌋ = 0 := by norm_num
    simp only [toFixed2, toFixed2Abs]
    rw [if_pos h1, h2]
    rfl
  refine ⟨hm, ?_⟩
  rw [hm, hk]
  decide

/-- C2 (amended): `formatDistance` returns "" on `null`/`NaN`; for a number
`meters < 1000` — with no lower bound, negative values included — it returns
`Math.round(meters)` followed by " m"; for `meters ≥ 1000` it returns
`(meters/1000).toFixed(2)` followed by " km"; in particular
`formatDistance(500) = "500 m"`, `formatDistance(1500) = "1.50 km"` and
`formatDistance(null) = ""`. -/
theorem formatDistance_spec :
    formatDistance .null = "" ∧
    formatDistance .nan = "" ∧
    (∀ q : ℚ, q < 1000 → formatDistance (.num q) = toString (jsRound q) ++ " m") ∧
    (∀ q : ℚ, 1000 ≤ q → formatDistance (.num q) = toFixed2 (q / 1000) ++ " km") ∧
    formatDistance (.num 500) = "500 m" ∧
    formatDistance (.num 1500) = "1.50 km" := by
  refine ⟨rfl, rfl, ?_, ?_, ?_, ?_⟩
  · intro q hq
    simp only [formatDistance]
    rw [if_pos hq]
  · intro q hq
    simp only [formatDistance]
    rw [if_neg (not_lt.mpr hq)]
  · have h : jsRound 500 = 500 := by norm_num [jsRound]
    simp only [formatDistance]
    rw [if_pos (by norm_num : (500:ℚ) < 1000), h]
    rfl
  · have h0 : ¬ ((1500:ℚ) < 1000) := by norm_num
    have h1 : ¬ ((1500:ℚ)/1000 < 0) := by norm_num
    have h2 : ⌊(1500:ℚ)/1000 * 100 + 1/2⌋ = 150 := by norm_num
    simp only [formatDistance, toFixed2, toFixed2Abs]
    rw [if_neg h0, if_neg h1, h2]
    rfl

/-- Witness for C2 at 500 (metre branch) and 1500 (kilometre branch). -/
theorem formatDistance_spec_witness :
    formatDistance (.num 500) = toString (jsRound 500) ++ " m" ∧
    formatDistance (.num 1500) = toFixed2 ((1500 : ℚ) / 1000) ++ " km" :=
  ⟨formatDistance_spec.2.2.1 500 (by decide),
   formatDistance_spec.2.2.2.1 1500 (by decide)⟩

/-! ## Claim C3: malformed elements are not skipped -/

/-- A well-formed node element at (10, 20). -/
def goodNode : Element := { type := "node", id := 1, lat := some 10, lon := some 20 }

/-- A malformed way: its `center` is missing. -/
def badWay : Element := { type := "way", id := 2 }

/-- A malformed node: its `lat`/`lon` are missing. -/
def bareNode : Element := { type := "node", id := 3 }

/-- Counterexample to C3: one way element without a `center` makes the whole
batch throw (the claim says it is skipped and the batch survives), and a
node without `lat`/`lon` is not skipped either — it becomes a Station with
absent coordinates. -/
theorem fetchStations_malformed_counterexample :
    fetchStations { ok := true, elements := some [goodNode, badWay] } =
      .error .typeError ∧
    fetchStations { ok := true, elements := some [bareNode] } =
      .ok [{ id := 3, lat := none, lon := none }] := by
  constructor <;> rfl

/-- Every element whose `center` local is defined (a node, or a non-node
carrying a `center`) is kept; the map never drops an element. -/
theorem elementCenter_eq_none_iff (el : Element) :
    elementCenter el = none ↔ (el.type ≠ "node" ∧ el.center = none) := by
  unfold elementCenter
  by_cases h : el.type = "node"
  · simp [h]
  · cases hc : el.center <;> simp [h, hc]

/-- C3 (amended): normalization does not skip malformed elements.  If every
element is a node or carries a `center`, the batch succeeds and returns one
Station per element (nodes with missing `lat`/`lon` included); if any
non-node element is missing its `center`, the whole batch is aborted by the
TypeError. -/
theorem normalizeElements_spec (els : List Element) :
    ((∀ el ∈ els, el.type = "node" ∨ el.center ≠ none) →
      Except.map List.length (normalizeElements els) = .ok els.length) ∧
    ((∃ el ∈ els, el.type ≠ "node" ∧ el.center = none) →
      normalizeElements els = .error ()) := by
  induction els with
  | nil =>
    refine ⟨fun _ => rfl, ?_⟩
    rintro ⟨el, hmem, -⟩
    cases hmem
  | cons el rest ih =>
    refine ⟨?_, ?_⟩
    · intro h
      have h1 := h el (List.mem_cons_self el rest)
      have hec : elementCenter el ≠ none := by
        intro hn
        rcases (elementCenter_eq_none_iff el).mp hn with ⟨ht, hc⟩
        rcases h1 with h1 | h1
        · exact ht h1
        · exact h1 hc
      obtain ⟨s, hs⟩ : ∃ s, normalizeElement el = Except.ok s := by
        unfold normalizeElement
        cases hE : elementCenter el with
        | none => exact absurd hE hec
        | some c => exact ⟨_, rfl⟩
      have hih := ih.1 (fun e he => h e (List.mem_cons_of_mem el he))
      cases hr : normalizeElements rest with
      | error e =>
        rw [hr] at hih
        simp [Except.map] at hih
      | ok ss =>
        rw [hr] at hih
        simp only [Except.map] at hih
        have hlen : ss.length = rest.length := by
          injection hih
        simp [normalizeElements, hs, hr, Except.map, hlen]
    · rintro ⟨e, hmem, hbad⟩
      rcases List.mem_cons.mp hmem with rfl | hmem2
      · have hE : elementCenter e = none := (elementCenter_eq_none_iff e).mpr hbad
        have hs : normalizeElement e = .error () := by
          unfold normalizeElement
          rw [hE]
        simp [normalizeElements, hs]
      · have hr := ih.2 ⟨e, hmem2, hbad⟩
        cases hs : normalizeElement el with
        | error u =>
          cases u
          simp [normalizeElements, hs]
        | ok s => simp [normalizeElements, hs, hr]

/-- Witness for C3 (amended): a batch of one well-formed node and one bare
node succeeds with one Station per element. -/
theorem normalizeElements_spec_witness :
    Except.map List.length (normalizeElements [goodNode, bareNode]) = .ok 2 :=
  (normalizeElements_spec [goodNode, bareNode]).1 (by decide)

/-! ## Claim C4: invalid manual coordinates are rejected -/

/-- C4: when the parsed latitude is NaN or outside [-90, 90], or the parsed
longitude is NaN or outside [-180, 180], `setManualLocationAndFetch` only
shows the validation alert: the state (user location, the still-open manual
form, the geolocation error) is unchanged and no station fetch is
triggered. -/
theorem setManualLocation_rejects_invalid (s : AppState) (m : ManualLocation)
    (h : m.lat = none ∨ m.lon = none ∨
         (∃ la, m.lat = some la ∧ (la < -90 ∨ la > 90)) ∨
         (∃ lo, m.lon = some lo ∧ (lo < -180 ∨ lo > 180))) :
    (setManualLocationAndFetch s m).state = s ∧
    (setManualLocationAndFetch s m).alerted = true ∧
    (setManualLocationAndFetch s m).fetchTriggered = false := by
  obtain ⟨mlat, mlon⟩ := m
  cases mlat with
  | none => exact ⟨rfl, rfl, rfl⟩
  | some la =>
    cases mlon with
    | none => exact ⟨rfl, rfl, rfl⟩
    | some lo =>
      have hbad : la < -90 ∨ la > 90 ∨ lo < -180 ∨ lo > 180 := by
        rcases h with h | h | ⟨la2, hla2, h2⟩ | ⟨lo2, hlo2, h2⟩
        · cases h
        · cases h
        · injection hla2 with e
          subst e
          rcases h2 with h2 | h2
          · exact Or.inl h2
          · exact Or.inr (Or.inl h2)
        · injection hlo2 with e
          subst e
          rcases h2 with h2 | h2
          · exact Or.inr (Or.inr (Or.inl h2))
          · exact Or.inr (Or.inr (Or.inr h2))
      rcases hbad with hb | hb | hb | hb <;>
        simp [setManualLocationAndFetch, hb]

/-- Witness for C4: manual entry with lat = 200 (lon = 0) is rejected: the
form stays open, nothing else changes, no fetch fires. -/
theorem setManualLocation_rejects_invalid_witness :
    (setManualLocationAndFetch
        { userLocation := none, showManualLocation := true, geoError := none }
        { lat := some 200, lon := some 0 }).state =
      { userLocation := none, showManualLocation := true, geoError := none } ∧
    (setManualLocationAndFetch
        { userLocation := none, showManualLocation := true, geoError := none }
        { lat := some 200, lon := some 0 }).alerted = true ∧
    (setManualLocationAndFetch
        { userLocation := none, showManualLocation := true, geoError := none }
        { lat := some 200, lon := some 0 }).fetchTriggered = false :=
  setManualLocation_rejects_invalid _ _
    (Or.inr (Or.inr (Or.inl ⟨200, rfl, Or.inr (by decide)⟩)))

/-! ## Claim C5: superseded geolocation responses are NOT discarded -/

/-- Counterexample to C5: two requests are issued (ids 0 then 1); the newer
request 1 resolves first with (1, 1); then the superseded request 0 resolves
with (2, 2) — and overwrites the newer coordinate, because the success
callback has no supersession check. -/
theorem superseded_response_overwrites_counterexample :
    (runResolver initialResolver
        [.locate, .locate, .success 1 1 1, .success 0 2 2]).userLocation =
      some { lat := 2, lon := 2 } ∧
    ({ lat := 2, lon := 2 } : Coordinate) ≠ { lat := 1, lon := 1 } := by
  constructor
  · rfl
  · decide

/-- C5 (amended): the success callback of any still-pending request runs its
body unconditionally when it fires: it overwrites `userLocation` with that
request's coordinate (and clears `geoError`, ends `isLocating`) even if a
newer request has since been issued or resolved — latest response wins, not
last request. -/
theorem resolver_success_always_overwrites (s : ResolverState) (req : ℕ)
    (lat lon : ℚ) (h : req ∈ s.pending) :
    (resolverStep s (.success req lat lon)).userLocation =
      some { lat := lat, lon := lon } ∧
    (resolverStep s (.success req lat lon)).geoError = none ∧
    (resolverStep s (.success req lat lon)).isLocating = false := by
  simp [resolverStep, h]

/-- Witness for C5 (amended): in the counterexample state where request 1
has already resolved, the pending request 0 still overwrites. -/
theorem resolver_success_always_overwrites_witness :
    (resolverStep
        (runResolver initialResolver [.locate, .locate, .success 1 1 1])
        (.success 0 2 2)).userLocation = some { lat := 2, lon := 2 } ∧
    (resolverStep
        (runResolver initialResolver [.locate, .locate, .success 1 1 1])
        (.success 0 2 2)).geoError = none ∧
    (resolverStep
        (runResolver initialResolver [.locate, .locate, .success 1 1 1])
        (.success 0 2 2)).isLocating = false :=
  resolver_success_always_overwrites
    (runResolver initialResolver [.locate, .locate, .success 1 1 1]) 0 2 2
    (by decide)

/-! ## Claims C6 and C7: the haversine distance -/

/-- C6: `haversineDistanceMeters` (the atan2-based haversine with Earth
radius 6371000 m, a pure total function) returns 0 for identical points and
is symmetric in its two coordinates. -/
theorem haversine_zero_and_symm :
    (∀ lat lon : ℝ, haversineDistanceMeters lat lon lat lon = 0) ∧
    (∀ lat1 lon1 lat2 lon2 : ℝ,
      haversineDistanceMeters lat1 lon1 lat2 lon2 =
        haversineDistanceMeters lat2 lon2 lat1 lon1) := by
  constructor
  · intro lat lon
    simp [haversineDistanceMeters, toRadians, jsAtan2]
  · intro lat1 lon1 lat2 lon2
    simp only [haversineDistanceMeters]
    have h : Real.sin (toRadians (lat2 - lat1) / 2) * Real.sin (toRadians (lat2 - lat1) / 2) +
        Real.cos (toRadians lat1) * Real.cos (toRadians lat2) *
        Real.sin (toRadians (lon2 - lon1) / 2) * Real.sin (toRadians (lon2 - lon1) / 2) =
        Real.sin (toRadians (lat1 - lat2) / 2) * Real.sin (toRadians (lat1 - lat2) / 2) +
        Real.cos (toRadians lat2) * Real.cos (toRadians lat1) *
        Real.sin (toRadians (lon1 - lon2) / 2) * Real.sin (toRadians (lon1 - lon2) / 2) := by
      have h1 : toRadians (lat2 - lat1) = -(toRadians (lat1 - lat2)) := by
        unfold toRadians; ring
      have h2 : toRadians (lon2 - lon1) = -(toRadians (lon1 - lon2)) := by
        unfold toRadians; ring
      rw [h1, h2, neg_div, neg_div, Real.sin_neg, Real.sin_neg]
      ring
    rw [h]

/-- C7: one degree of longitude on the equator measures within 50 m of
111195 m (the exact value the code computes is 6371000·π/180 ≈ 111194.93 m). -/
theorem haversine_equator_one_degree :
    |haversineDistanceMeters 0 0 0 1 - 111195| ≤ 50 := by
  have hpi := Real.pi_pos
  have hval : haversineDistanceMeters 0 0 0 1 = 6371000 * (2 * (Real.pi / 180 / 2)) := by
    simp only [haversineDistanceMeters]
    have h00 : toRadians (0 - 0) = 0 := by unfold toRadians; ring
    have h10 : toRadians (1 - 0) = Real.pi / 180 := by unfold toRadians; ring
    have h0 : toRadians 0 = 0 := by unfold toRadians; ring
    rw [h00, h10, h0]
    have t0 : (0:ℝ)/2 = 0 := by norm_num
    rw [t0, Real.sin_zero, Real.cos_zero]
    have hsimp : (0:ℝ) * 0 + 1 * 1 * Real.sin (Real.pi / 180 / 2) * Real.sin (Real.pi / 180 / 2)
        = Real.sin (Real.pi / 180 / 2) * Real.sin (Real.pi / 180 / 2) := by ring
    rw [hsimp]
    have hsle : Real.pi / 180 / 2 ≤ Real.pi := by nlinarith
    have hsnn : (0:ℝ) ≤ Real.pi / 180 / 2 := by positivity
    have h1 : (0:ℝ) ≤ Real.sin (Real.pi / 180 / 2) :=
      Real.sin_nonneg_of_nonneg_of_le_pi hsnn hsle
    have hcpos : 0 < Real.cos (Real.pi / 180 / 2) :=
      Real.cos_pos_of_mem_Ioo ⟨by nlinarith, by nlinarith⟩
    have hsq : Real.sqrt (Real.sin (Real.pi / 180 / 2) * Real.sin (Real.pi / 180 / 2)) =
        Real.sin (Real.pi / 180 / 2) := Real.sqrt_mul_self h1
    have h1m : 1 - Real.sin (Real.pi / 180 / 2) * Real.sin (Real.pi / 180 / 2) =
        Real.cos (Real.pi / 180 / 2) * Real.cos (Real.pi / 180 / 2) := by
      have hh := Real.sin_sq_add_cos_sq (Real.pi / 180 / 2)
      nlinarith [hh]
    have hsq2 : Real.sqrt (Real.cos (Real.pi / 180 / 2) * Real.cos (Real.pi / 180 / 2)) =
        Real.cos (Real.pi / 180 / 2) := Real.sqrt_mul_self (le_of_lt hcpos)
    rw [hsq, h1m, hsq2]
    have hatan : jsAtan2 (Real.sin (Real.pi / 180 / 2)) (Real.cos (Real.pi / 180 / 2)) =
        Real.pi / 180 / 2 := by
      unfold jsAtan2
      rw [if_pos hcpos, ← Real.tan_eq_sin_div_cos]
      exact Real.arctan_tan (by nlinarith) (by nlinarith)
    rw [hatan]
  rw [hval, abs_le]
  constructor <;> nlinarith [Real.pi_gt_d6, Real.pi_lt_d6]

/-! ## Claim C8: the route overlay -/

/-- C8: the `routeCoords` effect stores the two-point path from the user to
the station at index 0 of the ranking whenever the user location is resolved
and at least one station exists; it stores `null` when the user location is
unresolved or the station list is empty.  (The effect recomputes this value
on every change of `userLocation` or `stations` — its dependency array.) -/
theorem routeCoords_spec :
    (∀ (u : Coordinate) (s0 : Station) (rest : List Station),
      computeRouteCoords (some u) (s0 :: rest) =
        some [(some u.lat, some u.lon), (s0.lat, s0.lon)]) ∧
    (∀ stations : List Station, computeRouteCoords none stations = none) ∧
    (∀ u : Option Coordinate, computeRouteCoords u [] = none) := by
  refine ⟨fun u s0 rest => rfl, ?_, ?_⟩
  · intro stations
    cases stations <;> rfl
  · intro u
    cases u <;> rfl

/-! ## Claim C9: empty responses and the HTTP status -/

/-- C9: for a response whose `elements` list is absent or empty,
`fetchStations` succeeds with the empty station list exactly when the HTTP
status is a success, and fails (with the fetch error) exactly when it is
not. -/
theorem fetchStations_empty_ok_iff (resp : OverpassResponse)
    (h : resp.elements = none ∨ resp.elements = some []) :
    (fetchStations resp = .ok [] ↔ resp.ok = true) ∧
    (fetchStations resp = .error .fetchFailed ↔ resp.ok = false) := by
  obtain ⟨ok, elements⟩ := resp
  have he : elements.getD [] = [] := by
    rcases h with h | h <;> simp_all
  cases ok <;> simp [fetchStations, he, normalizeElements]

/-- Witness for C9: a success response with no `elements` field yields the
empty station list and no error. -/
theorem fetchStations_empty_ok_iff_witness :
    (fetchStations { ok := true, elements := none } = .ok [] ↔ (true : Bool) = true) ∧
    (fetchStations { ok := true, elements := none } = .error .fetchFailed ↔
      (true : Bool) = false) :=
  fetchStations_empty_ok_iff { ok := true, elements := none } (Or.inl rfl)

/-! ## Claim C10: `sortStationsByDistance` does not mutate its input -/

/-- C10: calling `sortStationsByDistance` on the array stored at address `i`
leaves that array exactly as it was (same elements, same order), and the
returned address is a fresh one (distinct from `i`) holding the sorted
copy. -/
theorem jsSortStationsCall_frame (store : List (List Station)) (i : ℕ)
    (h : i < store.length) :
    ((jsSortStationsCall store i).1.getD i [] = store.getD i []) ∧
    ((jsSortStationsCall store i).2 ≠ i) ∧
    ((jsSortStationsCall store i).1.getD (jsSortStationsCall store i).2 [] =
      sortStationsByDistance (store.getD i [])) := by
  refine ⟨?_, ?_, ?_⟩
  · simp only [jsSortStationsCall, List.getD_eq_getElem?_getD,
      List.getElem?_append_left h]
  · simp only [jsSortStationsCall]
    omega
  · simp only [jsSortStationsCall, List.getD_eq_getElem?_getD,
      List.getElem?_append_right (le_refl store.length)]
    simp

/-- Witness for C10 on a one-array heap holding the spec's example: the
original array still holds `[300, 100, 300, 50]` afterwards and the fresh
array holds the sorted ranking. -/
theorem jsSortStationsCall_frame_witness :
    ((jsSortStationsCall [demoStations] 0).1.getD 0 [] = [demoStations].getD 0 []) ∧
    ((jsSortStationsCall [demoStations] 0).2 ≠ 0) ∧
    ((jsSortStationsCall [demoStations] 0).1.getD (jsSortStationsCall [demoStations] 0).2 [] =
      sortStationsByDistance ([demoStations].getD 0 [])) :=
  jsSortStationsCall_frame [demoStations] 0 (by decide)

end FuelFinder
